import Mathlib

/-!
Verification development for the Apache Doris target connector
(`cocoindex/targets/doris.py`): a shallow embedding of its retry executor,
schema-compatibility oracle, stream-load status handling, identifier
validation, vector-index validation, index synchronization and mutation
pipeline, with theorems about their behavior.

Conventions of the embedding:
- Python exceptions become an explicit `PyExc` value; fallible code returns
  `Except PyExc`.
- Network and database effects are oracles: functions supplied as arguments
  giving the outcome of each external call, so a run of an operation is a
  pure function of its oracle.
- Python float delays are modelled as rationals; the backoff formula is
  symbolic, so no precision is lost for the claims proved here.
- Python dicts are association lists (`List (String × _)`) with first-match
  lookup (dict keys are unique at every use site embedded here).
- Polling loops bounded by a wall-clock timeout are modelled with an
  iteration budget (`fuel`): one unit per poll round.
-/

/- ============================================================
   Small helpers (Python string formatting)
   ============================================================ -/

/-- A single-quote character as a one-character string (used to reproduce the
Python error-message formatting `'{name}'`). -/
def pysq : String := String.singleton (Char.ofNat 39)

/-- Python `'{x}'` quoting used in the connector's f-strings. -/
def pyq (s : String) : String := pysq ++ s ++ pysq

/-- Python `str(list_of_strings)` rendering, e.g. `['a', 'b']`, as produced by
`f"... \x7blist(actual_schema.keys())\x7d"`. -/
def py_str_list_repr (ns : List String) : String :=
  "[" ++ String.intercalate ", " (ns.map pyq) ++ "]"

/-- Bool test: `pat` occurs as a contiguous sublist of `l`. Used to formalize
"the error message names the offending column". -/
def list_sublist_found (pat : List Char) : List Char → Bool
  | [] => pat.isEmpty
  | c :: cs => pat.isPrefixOf (c :: cs) || list_sublist_found pat cs

/-- Python `str.upper()` (ASCII, the only case arising here), as a
character-list map. -/
def py_upper (s : String) : String := String.mk (s.toList.map Char.toUpper)

/-- Python `str.startswith(pre)`. -/
def py_startswith (s pre : String) : Bool := pre.toList.isPrefixOf s.toList

/-- Python `str.strip()`: drop whitespace from both ends. -/
def py_strip (s : String) : String :=
  String.mk (((s.toList.dropWhile Char.isWhitespace).reverse.dropWhile
    Char.isWhitespace).reverse)

/-- Decidable equality of `Except` results (the standard library derives
none for `Except`). -/
instance {ε α : Type} [DecidableEq ε] [DecidableEq α] : DecidableEq (Except ε α) := fun a b =>
  match a, b with
  | .ok x, .ok y =>
    if h : x = y then isTrue (by rw [h]) else isFalse (fun c => by cases c; exact h rfl)
  | .error x, .error y =>
    if h : x = y then isTrue (by rw [h]) else isFalse (fun c => by cases c; exact h rfl)
  | .ok _, .error _ => isFalse (fun c => by cases c)
  | .error _, .ok _ => isFalse (fun c => by cases c)

/-- Here `chunks bs l` is the list of slices `l[i : i + bs]` for `i = 0, bs, 2*bs, ...`,
the chunking `for i in range(0, len(l), bs)` performs (for `bs > 0`). -/
def chunks_go (bs : Nat) : Nat → List β → List (List β)
  | _, [] => []
  | 0, _ => []
  | fuel + 1, l => l.take bs :: chunks_go bs fuel (l.drop bs)

def chunks (bs : Nat) (l : List β) : List (List β) := chunks_go bs l.length l

/- ============================================================
   ERROR CLASSES (doris.py lines 220-263)
   ============================================================ -/

/-- A JSON field value of which only string-ness matters to the embedded code
(`Status` in a Stream Load response may be a non-string). -/
inductive JsonVal
  | str (s : String)
  | nonString
deriving DecidableEq, Repr

/-- Class `DorisStreamLoadError`: carries the constructor arguments
`(message, status, error_url, loaded_rows, filtered_rows)`. -/
structure DorisStreamLoadErr where
  message : String
  status : JsonVal
  error_url : Option String
  loaded_rows : Nat
  filtered_rows : Nat
deriving DecidableEq, Repr

/-- Class `DorisSchemaError(message, field_name=None)`. -/
structure DorisSchemaError where
  message : String
  field_name : Option String
deriving DecidableEq, Repr

/-- Exceptions transport-level code can raise before any Doris wrapper class
is involved: the retryable kinds of `_get_retryable_errors` (asyncio timeout,
connection errors, the two aiohttp errors), the pymysql kinds classified by
`_is_retryable_mysql_error`, and an opaque non-retryable rest. -/
inductive BasePyExc
  | asyncioTimeout
  | connectionError
  | connectionReset
  | connectionRefused
  | clientConnectorError
  | serverDisconnected
  | mysqlOperational (code : Int)
  | mysqlInterface
  | otherExc (tag : Nat)
deriving DecidableEq, Repr

/-- A Python exception as the embedded connector distinguishes them. The
`cause` of a `DorisConnectionError` raised by `with_retry` is always a
transport-level error (only retryable errors are remembered), so it is typed
`Option BasePyExc`. -/
inductive PyExc
  | base (e : BasePyExc)
  | dorisAuth (message : String) (host : String) (port : Nat)
  | dorisStreamLoad (err : DorisStreamLoadErr)
  | dorisSchema (message : String)
  | dorisConnectionError (message : String) (host : String) (port : Nat)
      (cause : Option BasePyExc)
deriving DecidableEq, Repr

/-- The `except DorisSchemaError` test (no other embedded class subclasses it). -/
def is_doris_schema_error : PyExc → Bool
  | .dorisSchema _ => true
  | _ => false

/- ============================================================
   RETRY LOGIC (doris.py lines 271-373)
   ============================================================ -/

/-- Class `RetryConfig` (doris.py lines 271-278). Source defaults:
`max_retries=3, base_delay=1.0, max_delay=30.0, exponential_base=2.0`. -/
structure RetryConfig where
  max_retries : Nat
  base_delay : ℚ
  max_delay : ℚ
  exponential_base : ℚ
deriving DecidableEq, Repr

/-- Function `_is_retryable_mysql_error` (lines 281-302): `OperationalError` with a
code in `{2003, 2006, 2013, 1040, 1205}`, or any `InterfaceError`. -/
def _is_retryable_mysql_error : BasePyExc → Bool
  | .mysqlOperational code =>
      code = 2003 || code = 2006 || code = 2013 || code = 1040 || code = 1205
  | .mysqlInterface => true
  | _ => false

/-- The test `isinstance(e, retryable_errors)` for the tuple `_get_retryable_errors`
returns with aiohttp installed (lines 305-322). -/
def is_base_retryable : BasePyExc → Bool
  | .asyncioTimeout => true
  | .connectionError => true
  | .connectionReset => true
  | .connectionRefused => true
  | .clientConnectorError => true
  | .serverDisconnected => true
  | _ => false

/-- The `is_retryable` test of `with_retry` (line 346):
`isinstance(e, retryable_errors) or _is_retryable_mysql_error(e)`. -/
def is_retryable_error : PyExc → Bool
  | .base e => is_base_retryable e || _is_retryable_mysql_error e
  | _ => false

/-- The slept backoff (lines 354-357):
`min(base_delay * exponential_base ** attempt, max_delay)`. -/
def backoff_delay (config : RetryConfig) (attempt : Nat) : ℚ :=
  min (config.base_delay * config.exponential_base ^ attempt) config.max_delay

/-- What a run of `with_retry` produced: how many times the operation was
invoked, the delays slept between attempts, and the returned value or the
exception that propagated. -/
structure RetryResult (T : Type) where
  invocations : Nat
  delays : List ℚ
  result : Except PyExc T
deriving Repr

/-- The message of the `DorisConnectionError` raised on exhaustion
(line 369): `f"\x7boperation_name\x7d failed after \x7bconfig.max_retries + 1\x7d attempts"`. -/
def retry_exhausted_message (operation_name : String) (config : RetryConfig) : String :=
  operation_name ++ " failed after " ++ toString (config.max_retries + 1) ++ " attempts"

/-- The retryable error remembered as `last_error` (line 352); only reached
for retryable errors, which are all transport-level (`.base`). -/
def remembered_error (e : PyExc) (last_error : Option BasePyExc) : Option BasePyExc :=
  match e with
  | .base b => some b
  | _ => last_error

/-- The loop `for attempt in range(config.max_retries + 1)` of `with_retry`
(lines 341-373), driven by the count of attempts still allowed
(`remaining = config.max_retries + 1 - attempt`, so the source's sleep
guard `attempt < config.max_retries` is `0 < remaining` here), carrying the
`last_error` and the delays slept so far. The operation is an oracle
mapping the attempt number to that invocation's outcome. On a retryable
error the computed backoff is slept (appended to `delays`) unless this was
the final attempt; a non-retryable error re-raises immediately; once
attempts are exhausted a `DorisConnectionError(msg, host="", port=0,
cause=last_error)` is raised. -/
def with_retry_go {T : Type} (config : RetryConfig) (operation_name : String)
    (op : Nat → Except PyExc T) :
    Nat → Nat → Option BasePyExc → List ℚ → RetryResult T
  | 0, attempt, last_error, delays =>
    ⟨attempt, delays,
      .error (PyExc.dorisConnectionError
        (retry_exhausted_message operation_name config) "" 0 last_error)⟩
  | remaining + 1, attempt, last_error, delays =>
    match op attempt with
    | .ok v => ⟨attempt + 1, delays, .ok v⟩
    | .error e =>
      if is_retryable_error e then
        with_retry_go config operation_name op remaining (attempt + 1)
          (remembered_error e last_error)
          (if 0 < remaining then delays ++ [backoff_delay config attempt] else delays)
      else ⟨attempt + 1, delays, .error e⟩

/-- Function `with_retry(operation, config, operation_name)` (lines 325-373). -/
def with_retry {T : Type} (config : RetryConfig) (operation_name : String)
    (op : Nat → Except PyExc T) : RetryResult T :=
  with_retry_go config operation_name op (config.max_retries + 1) 0 none []

/- ============================================================
   SCHEMA DATA MODEL (doris.py lines 133-202; field schema modelled
   from the spec)
   ============================================================ -/

/-- Modelled from the spec: the engine value-type descriptor of
`cocoindex.engine_type` (not among this repository's sources) as the
connector consumes it — an opaque schema "already resolved to
\x7bname, kind, nullable, vector-dimension\x7d" (spec section 1). `basic kind dim`
covers `BasicValueType` (with its optional vector dimension), `structT` and
`tableT` cover `StructType` / `TableType`. Equality is structural, as for
the Python dataclasses. -/
inductive ValueTypeRepr
  | basic (kind : String) (vectorDimension : Option Nat)
  | structT
  | tableT
deriving DecidableEq, Repr

/-- Modelled from the spec: `EnrichedValueType` with its base `type` and
`nullable` flag, the two attributes `doris.py` reads from it. -/
structure EnrichedValueType where
  type : ValueTypeRepr
  nullable : Bool
deriving DecidableEq, Repr

/-- Modelled from the spec: `FieldSchema` = \x7bname, value type\x7d. -/
structure FieldSchema where
  name : String
  value_type : EnrichedValueType
deriving DecidableEq, Repr

/-- The `schema_evolution` policy, `Literal["extend", "strict"]`. -/
inductive SchemaEvolution
  | extend
  | strict
deriving DecidableEq, Repr

/-- Dataclass `_VectorIndex` (doris.py lines 153-166). -/
structure _VectorIndex where
  name : String
  field_name : String
  index_type : String
  metric_type : String
  dimension : Nat
  max_degree : Option Nat
  ef_construction : Option Nat
  nlist : Option Nat
deriving DecidableEq, Repr

/-- Dataclass `_InvertedIndex` (doris.py lines 169-175); the optional text parser
name is `parserName` here. -/
structure _InvertedIndex where
  name : String
  field_name : String
  parserName : Option String
deriving DecidableEq, Repr

/-- Dataclass `_State` (doris.py lines 178-202), restricted to the fields the embedded
operations read: the key/value field schemas, the index sets and the schema
evolution mode. The remaining fields (connection credentials, ports, retry
and timeout numbers, `replication_num`, `buckets`, `auto_create_table`) are
passed to the embedded operations separately through `DorisTarget` and are
never read by `check_state_compatibility`. -/
structure _State where
  key_fields_schema : List FieldSchema
  value_fields_schema : List FieldSchema
  vector_indexes : Option (List _VectorIndex)
  inverted_indexes : Option (List _InvertedIndex)
  schema_evolution : SchemaEvolution
deriving DecidableEq, Repr

/-- Dataclass `_ColumnInfo` (doris.py lines 133-141): a column of the live table as
`DESCRIBE` reports it. -/
structure _ColumnInfo where
  name : String
  doris_type : String
  nullable : Bool
  is_key : Bool
  dimension : Option Nat
deriving DecidableEq, Repr

/-- Spec class `DorisTarget` (doris.py lines 95-130), restricted to the connection,
batching, retry and timeout fields the embedded operations read
(`buckets`/`replication_num`, only used by DDL text generation, are not
embedded). -/
structure DorisTarget where
  fe_host : String
  database : String
  table : String
  fe_http_port : Nat
  query_port : Nat
  username : String
  password : String
  enable_https : Bool
  batch_size : Nat
  stream_load_timeout : Nat
  auto_create_table : Bool
  schema_change_timeout : Nat
  index_build_timeout : Nat
  max_retries : Nat
  retry_base_delay : ℚ
  retry_max_delay : ℚ
  schema_evolution : SchemaEvolution
deriving DecidableEq, Repr

/- ============================================================
   SCHEMA COMPATIBILITY ORACLE (doris.py lines 1557-1597)
   ============================================================ -/

/-- Enum `op.TargetStateCompatibility` as `check_state_compatibility` uses it. -/
inductive TargetStateCompatibility
  | COMPATIBLE
  | NOT_COMPATIBLE
deriving DecidableEq, Repr

/-- The value-column names removed between `previous` and `current`
(lines 1569-1573): `prev_field_names - curr_field_names` on the name sets,
here as the sublist of previous names absent from current. Only emptiness
of this set is ever tested. -/
def removed_value_columns (previous current : _State) : List String :=
  let curr_field_names := current.value_fields_schema.map fun f => f.name
  (previous.value_fields_schema.map fun f => f.name).filter
    fun n => ¬ curr_field_names.contains n

/-- The dict `\x7bf.name: f for f in previous.value_fields_schema\x7d`
(line 1587): on a duplicate name the later entry wins. -/
def prev_field_lookup (previous : _State) (n : String) : Option FieldSchema :=
  (previous.value_fields_schema.filter fun f => f.name = n).getLast?

/-- The loop of lines 1588-1592: some value column present in both schemas
changed its declared base type. -/
def type_changed_in_common (previous current : _State) : Bool :=
  current.value_fields_schema.any fun field =>
    match prev_field_lookup previous field.name with
    | some pf => decide (pf.value_type.type ≠ field.value_type.type)
    | none => false

/-- Method `_Connector.check_state_compatibility` (doris.py lines 1557-1597):
key-schema change is always NOT_COMPATIBLE; a removed value column is
NOT_COMPATIBLE in strict mode only; a changed type on a column present in
both schemas is NOT_COMPATIBLE; otherwise COMPATIBLE. The evolution mode
consulted is `current.schema_evolution`. -/
def check_state_compatibility (previous current : _State) : TargetStateCompatibility :=
  if previous.key_fields_schema ≠ current.key_fields_schema then
    TargetStateCompatibility.NOT_COMPATIBLE
  else if removed_value_columns previous current ≠ [] ∧
      current.schema_evolution = SchemaEvolution.strict then
    TargetStateCompatibility.NOT_COMPATIBLE
  else if type_changed_in_common previous current then
    TargetStateCompatibility.NOT_COMPATIBLE
  else
    TargetStateCompatibility.COMPATIBLE

/- ============================================================
   SQL IDENTIFIER VALIDATION (doris.py lines 573-576)
   ============================================================ -/

/-- Character class `[a-zA-Z_]`. -/
def is_ident_start (c : Char) : Bool :=
  ( 'a' ≤ c && c ≤ 'z') || ( 'A' ≤ c && c ≤ 'Z') || c == '_'

/-- Character class `[a-zA-Z0-9_]`. -/
def is_ident_rest (c : Char) : Bool :=
  is_ident_start c || ( '0' ≤ c && c ≤ '9')

/-- Membership in the language of `[a-zA-Z_][a-zA-Z0-9_]*`. -/
def ident_chars_match : List Char → Bool
  | [] => false
  | c :: cs => is_ident_start c && cs.all is_ident_rest

/-- The claim's reading of the pattern `^[a-zA-Z_][a-zA-Z0-9_]*$` as a
full-string match, with `$` anchored at the very end of the string (the
textbook regular-expression semantics). Second definition for the
comparison with the source's Python semantics below. -/
def spec_regex_full_match (name : String) : Bool :=
  ident_chars_match name.toList

/-- The call `re.match(r"^[a-zA-Z_][a-zA-Z0-9_]*$", name)` under Python `re`
semantics, hand-compiled for this fixed pattern: Python's `$` (without
`re.MULTILINE`) matches at the end of the string **or just before a single
trailing newline**, so the accepted set is L ∪ \x7b w ++ "\n" | w ∈ L \x7d for
L the language of `[a-zA-Z_][a-zA-Z0-9_]*`. -/
def re_match_identifier (name : String) : Bool :=
  ident_chars_match name.toList ||
    (match name.toList.getLast? with
     | some c => c == '\n' && ident_chars_match name.toList.dropLast
     | none => false)

/-- Function `_validate_identifier` (doris.py lines 573-576): raises
`DorisSchemaError(f"Invalid identifier: \x7bname\x7d")` when the pattern does not
match, returns `None` otherwise. -/
def _validate_identifier (name : String) : Except DorisSchemaError Unit :=
  if re_match_identifier name = false then
    .error ⟨"Invalid identifier: " ++ name, none⟩
  else
    .ok ()

/- ============================================================
   VECTOR INDEX COLUMN VALIDATION (doris.py lines 1363-1403)
   ============================================================ -/

/-- The live schema a `DESCRIBE` produced: `dict[str, _ColumnInfo]` keyed by
column name (keys unique), as an association list. -/
def ActualSchema : Type := List (String × _ColumnInfo)

/-- Function `_validate_vector_index_column(idx, actual_schema)` (lines 1363-1403).
Check 1: the column exists; check 2: its reported type starts with `ARRAY`
(upper-cased); check 3: it is NOT NULL; check 4: if the live column reports
a dimension, it equals the index's declared dimension. Each violation
raises `DorisSchemaError(message)` with the f-string messages of the
source, reproduced verbatim (note the check-4 message interpolates only
the index name and the two dimensions). -/
def _validate_vector_index_column (idx : _VectorIndex) (actual_schema : ActualSchema) :
    Except DorisSchemaError Unit :=
  match actual_schema.lookup idx.field_name with
  | none =>
    .error ⟨"Cannot create vector index " ++ pyq idx.name ++ ": column " ++
      pyq idx.field_name ++ " does not exist in table. Available columns: " ++
      py_str_list_repr (actual_schema.map Prod.fst), none⟩
  | some col =>
    if py_startswith (py_upper col.doris_type) "ARRAY" = false then
      .error ⟨"Cannot create vector index " ++ pyq idx.name ++ ": column " ++
        pyq idx.field_name ++ " has type " ++ pyq col.doris_type ++
        ", expected ARRAY<FLOAT>. Vector indexes require array types.", none⟩
    else if col.nullable then
      .error ⟨"Cannot create vector index " ++ pyq idx.name ++ ": column " ++
        pyq idx.field_name ++
        " is nullable. Vector indexes require NOT NULL columns. Use ALTER TABLE to set the column to NOT NULL.", none⟩
    else
      match col.dimension with
      | some d =>
        if d ≠ idx.dimension then
          .error ⟨"Cannot create vector index " ++ pyq idx.name ++
            ": dimension mismatch - column has " ++ toString d ++
            " dimensions, but index expects " ++ toString idx.dimension ++
            " dimensions.", none⟩
        else .ok ()
      | none => .ok ()

/-- Formalizes "the message names this column": the column name occurs in the message
text (as a contiguous substring). -/
def message_names_column (msg : String) (column : String) : Prop :=
  ∃ pre post : String, msg = pre ++ column ++ post

/- ============================================================
   STREAM LOAD (doris.py lines 710-789)
   ============================================================ -/

/-- A Stream Load JSON response body, as a record of the fields
`do_stream_load` reads with `result.get(...)`; a missing field is `none`. -/
structure StreamLoadResponse where
  Status : Option JsonVal
  Message : Option String
  ErrorURL : Option String
  NumberLoadedRows : Option Nat
  NumberFilteredRows : Option Nat
deriving DecidableEq, Repr

/-- The response `{"Status": "Success", "NumberLoadedRows": 0}` returned for
an empty row list (line 724). -/
def empty_rows_response : StreamLoadResponse :=
  ⟨some (JsonVal.str "Success"), none, none, some 0, none⟩

/-- The status check of `do_stream_load` (lines 765-778): take `Status` with
default `"Unknown"`, upper-case it when it is a string (else use `""`), treat
`SUCCESS` and `PUBLISH TIMEOUT` as success, and raise a
`DorisStreamLoadError` carrying the reported message (default
`"Unknown error"`), the raw status, the optional `ErrorURL`, and the
loaded/filtered row counts (default 0) otherwise. -/
def check_stream_load_status (result : StreamLoadResponse) :
    Except PyExc StreamLoadResponse :=
  let status := result.Status.getD (JsonVal.str "Unknown")
  let status_upper := match status with
    | JsonVal.str s => py_upper s
    | JsonVal.nonString => ""
  if ¬ (status_upper = "SUCCESS" ∨ status_upper = "PUBLISH TIMEOUT") then
    .error (PyExc.dorisStreamLoad
      { message := result.Message.getD "Unknown error"
        status := status
        error_url := result.ErrorURL
        loaded_rows := result.NumberLoadedRows.getD 0
        filtered_rows := result.NumberFilteredRows.getD 0 })
  else
    .ok result

/-- What one `session.put` of the Stream Load URL produced: a raised
transport exception, or an HTTP response with a status code and a body that
is or is not valid JSON. -/
inductive HttpOutcome
  | exc (e : PyExc)
  | response (httpStatus : Nat) (body : Except String StreamLoadResponse)

/-- The body of `do_stream_load` (lines 740-778) for one HTTP outcome:
HTTP 401/403 raises `DorisAuthError` (a `DorisConnectionError` subclass,
embedded as `dorisAuth`), an unparseable body raises
`DorisStreamLoadError(message=f"Invalid JSON response: \x7btext[:200]\x7d",
status="ParseError")`, and otherwise the status check above decides. -/
def do_stream_load (spec : DorisTarget) (outcome : HttpOutcome) :
    Except PyExc StreamLoadResponse :=
  match outcome with
  | .exc e => .error e
  | .response httpStatus body =>
    if httpStatus = 401 ∨ httpStatus = 403 then
      .error (PyExc.dorisAuth ("Authentication failed: HTTP " ++ toString httpStatus)
        spec.fe_host spec.fe_http_port)
    else
      match body with
      | .error text =>
        .error (PyExc.dorisStreamLoad
          ⟨"Invalid JSON response: " ++ text.take 200, JsonVal.str "ParseError",
            none, 0, 0⟩)
      | .ok result => check_stream_load_status result

/-- A run of `_stream_load`: how many HTTP requests were issued, whether the
retry executor was entered, the backoffs slept, and the result. -/
structure StreamLoadRun where
  httpCalls : Nat
  retryUsed : Bool
  delays : List ℚ
  result : Except PyExc StreamLoadResponse

/-- Function `_stream_load(session, spec, rows)` (doris.py lines 710-789). An empty
row list returns `{"Status": "Success", "NumberLoadedRows": 0}` at once —
before the URL, label, column-superset header or payload are built, with no
HTTP request and no use of `with_retry`. A non-empty list runs
`do_stream_load` under `with_retry` with the spec's retry settings
(`exponential_base` keeps its default 2); the oracle gives each HTTP
attempt's outcome, and each invocation is one HTTP request. The label,
header and payload construction (`time`/`uuid`-based label, sorted column
superset, JSON encoding) does not affect the run structure and is not
modelled. -/
def _stream_load (spec : DorisTarget) (rows : List (List (String × JsonVal)))
    (oracle : Nat → HttpOutcome) : StreamLoadRun :=
  if rows.isEmpty then
    { httpCalls := 0, retryUsed := false, delays := [], result := .ok empty_rows_response }
  else
    let retry_config : RetryConfig :=
      { max_retries := spec.max_retries
        base_delay := spec.retry_base_delay
        max_delay := spec.retry_max_delay
        exponential_base := 2 }
    let r := with_retry retry_config "Stream Load"
      (fun attempt => do_stream_load spec (oracle attempt))
    { httpCalls := r.invocations, retryUsed := true, delays := r.delays, result := r.result }

/- ============================================================
   INDEX BUILD WAIT AND INDEX SYNCHRONIZATION
   (doris.py lines 1138-1200 and 1282-1325)
   ============================================================ -/

/-- One row of `SHOW BUILD INDEX`, as `_wait_for_index_build` reads it:
`IndexName` (already through `str(...)`), and the optional `State` and
`Msg` fields. -/
structure BuildIndexRow where
  IndexName : String
  State : Option String
  Msg : Option String
deriving DecidableEq, Repr

/-- What one `SHOW BUILD INDEX` poll produced: a row list, or a raised
exception (swallowed by the loop's `except Exception` and logged). -/
inductive BuildPollResult
  | rows (rs : List BuildIndexRow)
  | exc (e : PyExc)

/-- One round of the `_wait_for_index_build` loop body (doris.py lines
1157-1195): `none` means "sleep and poll again", `some r` means the loop
ends with `r`. A query exception is logged and the loop continues; an
empty job list returns `True`; the first row whose stripped `IndexName`
equals `index_name` decides — `FINISHED` returns `True`,
`CANCELLED`/`FAILED` raises `DorisSchemaError(f"Index build \x7bindex_name\x7d
failed with state \x7bstate\x7d: \x7bmsg\x7d")`, any other state sleeps and polls
again; a non-empty list with no matching row returns `True` (assumed
already complete). -/
def wait_poll_step (index_name : String) : BuildPollResult → Option (Except PyExc Bool)
  | .exc _ => none
  | .rows [] => some (.ok true)
  | .rows rs =>
    match rs.find? fun r => py_strip r.IndexName == index_name with
    | none => some (.ok true)
    | some row =>
      let state := row.State.getD "FINISHED"
      if state = "FINISHED" then some (.ok true)
      else if state = "CANCELLED" ∨ state = "FAILED" then
        some (.error (PyExc.dorisSchema ("Index build " ++ index_name ++
          " failed with state " ++ state ++ ": " ++ row.Msg.getD "Unknown reason")))
      else none

/-- Function `_wait_for_index_build(spec, key, index_name, timeout)` (doris.py lines
1138-1200): the polling loop, with the wall-clock bound modelled as a poll
budget `fuel` (one unit per round) and the poll outcomes given by an
oracle indexed by the poll round. An exhausted budget is the timeout: a
warning is logged and the call returns `False`. -/
def _wait_for_index_build (index_name : String) (polls : Nat → BuildPollResult) :
    Nat → Nat → Except PyExc Bool
  | 0, _ => .ok false
  | fuel + 1, round =>
    match wait_poll_step index_name (polls round) with
    | some r => r
    | none => _wait_for_index_build index_name polls fuel (round + 1)

/-- The body of the `for idx_name in vec_to_add` loop of `_sync_indexes`
(doris.py lines 1282-1325) for one vector index to add. Outside the `try`:
when a live schema is available, `_validate_vector_index_column` runs and
its `DorisSchemaError` propagates. Inside the `try`: wait for pending
schema changes (timeout raises `DorisSchemaError`), `CREATE INDEX`,
`BUILD INDEX` (each an oracle-supplied outcome), then
`_wait_for_index_build`; a `False` from that wait (its timeout) raises
`DorisSchemaError(f"Timeout waiting for index build \x7bidx.name\x7d to
complete")`. The handlers re-raise any `DorisSchemaError` and swallow (log
as a warning) every other exception. -/
def sync_add_vector_index (idx : _VectorIndex) (actual_schema : Option ActualSchema)
    (schema_wait : Except PyExc Bool) (create_res build_res : Except PyExc Unit)
    (build_fuel : Nat) (polls : Nat → BuildPollResult) : Except PyExc Unit :=
  match (match actual_schema with
         | some s =>
           match _validate_vector_index_column idx s with
           | .error err => .error (PyExc.dorisSchema err.message)
           | .ok () => .ok ()
         | none => .ok () : Except PyExc Unit) with
  | .error e => .error e
  | .ok () =>
    let body : Except PyExc Unit :=
      match schema_wait with
      | .error e => .error e
      | .ok completed =>
        if completed = false then
          .error (PyExc.dorisSchema
            ("Timeout waiting for schema change before creating index " ++ idx.name))
        else
          match create_res with
          | .error e => .error e
          | .ok () =>
            match build_res with
            | .error e => .error e
            | .ok () =>
              match _wait_for_index_build idx.name polls build_fuel 0 with
              | .error e => .error e
              | .ok built =>
                if built = false then
                  .error (PyExc.dorisSchema
                    ("Timeout waiting for index build " ++ idx.name ++ " to complete"))
                else .ok ()
    match body with
    | .ok () => .ok ()
    | .error e => if is_doris_schema_error e then .error e else .ok ()

/- ============================================================
   MUTATION PIPELINE (doris.py lines 1846-1918)
   ============================================================ -/

/-- A mutation key: a scalar for a single-column key, or an ordered tuple
for a composite key, over an abstract value domain `α`. -/
inductive MutKey (α : Type)
  | scalar (v : α)
  | tup (vs : List α)
deriving DecidableEq, Repr

/-- Dict assignment `row[k] = v`: overwrite an existing entry in place,
else append. -/
def dinsert {α : Type} (row : List (String × α)) (k : String) (v : α) :
    List (String × α) :=
  if row.any fun p => p.1 = k then
    row.map fun p => if p.1 = k then (k, v) else p
  else
    row ++ [(k, v)]

/-- The key dict of one mutation entry (lines 1857-1864):
`\x7bname: conv(k) for name, k in zip(key_field_names, key)\x7d` for a tuple key,
`\x7bkey_field_names[0]: conv(key)\x7d` for a scalar. `conv` stands for
`_convert_value_for_doris`, which recurses over dynamic Python values and
is modelled as an abstract transform of the value domain. (For an empty
`key_field_names` the source would raise `IndexError`; `get_setup_state`
guarantees at least one key field, and the scalar case is modelled as the
empty dict there.) -/
def build_key_dict {α : Type} (key_field_names : List String) (conv : α → α) :
    MutKey α → List (String × α)
  | .scalar k =>
    match key_field_names with
    | n :: _ => [(n, conv k)]
    | [] => []
  | .tup ks => (key_field_names.zip ks).map fun p => (p.1, conv p.2)

/-- The upsert row of one mutation entry (lines 1869-1876): start from the
key dict and assign `conv(value[field.name])` for every declared value
field present in the incoming value dict. -/
def build_upsert_row {α : Type} (value_fields_schema : List FieldSchema) (conv : α → α)
    (key_dict : List (String × α)) (value : List (String × α)) : List (String × α) :=
  value_fields_schema.foldl
    (fun row field =>
      match value.lookup field.name with
      | some v => dinsert row field.name (conv v)
      | none => row)
    key_dict

/-- The partition loop of `mutate` (lines 1856-1876): entries with a `None`
value become delete key dicts, the rest become upsert rows, each list in
batch order. -/
def partition_mutations {α : Type} (key_field_names : List String)
    (value_fields_schema : List FieldSchema) (conv : α → α)
    (mutations : List (MutKey α × Option (List (String × α)))) :
    List (List (String × α)) × List (List (String × α)) :=
  mutations.foldl
    (fun acc m =>
      let key_dict := build_key_dict key_field_names conv m.1
      match m.2 with
      | none => (acc.1, acc.2 ++ [key_dict])
      | some value =>
        (acc.1 ++ [build_upsert_row value_fields_schema conv key_dict value], acc.2))
    ([], [])

/-- The dict `\x7bname: row[name] for name in key_field_names\x7d` (lines 1887-1889); the
keys are present in every upsert row by construction. -/
def upsert_keys_of {α : Type} (key_field_names : List String)
    (upserts : List (List (String × α))) : List (List (String × α)) :=
  upserts.map fun row =>
    key_field_names.filterMap fun n => (row.lookup n).map fun v => (n, v)

/-- An observable step of a `mutate` run: one `_execute_delete` call with
its chunk of key dicts, one `_stream_load` call with its chunk of rows, or
the `_logger.error` emitted when a Stream Load fails after deletes. -/
inductive MutEvent (α : Type)
  | deleteCall (chunk : List (List (String × α)))
  | loadCall (chunk : List (List (String × α)))
  | logDataLoss (deleted_count : Nat)
deriving DecidableEq, Repr

/-- The delete loop over upsert-key chunks (lines 1892-1897): each chunk
goes to `_execute_delete` (an oracle returning the deleted row count);
counts accumulate; an exception propagates at once. -/
def delete_chunks_run {α : Type}
    (del : List (List (String × α)) → Except PyExc Nat) :
    List (List (List (String × α))) → List (MutEvent α) × Except PyExc Nat
  | [] => ([], .ok 0)
  | c :: cs =>
    match del c with
    | .error e => ([MutEvent.deleteCall c], .error e)
    | .ok n =>
      let r := delete_chunks_run del cs
      (MutEvent.deleteCall c :: r.1,
       match r.2 with
       | .ok m => .ok (n + m)
       | .error e => .error e)

/-- The Stream Load loop over upsert-row chunks (lines 1901-1904): stops at
the first failing chunk, whose exception propagates. -/
def load_chunks_run {α : Type}
    (load : List (List (String × α)) → Except PyExc Unit) :
    List (List (List (String × α))) → List (MutEvent α) × Except PyExc Unit
  | [] => ([], .ok ())
  | c :: cs =>
    match load c with
    | .error e => ([MutEvent.loadCall c], .error e)
    | .ok () =>
      let r := load_chunks_run load cs
      (MutEvent.loadCall c :: r.1, r.2)

/-- The explicit-delete loop over tombstone chunks (lines 1916-1918): the
deleted counts are discarded; an exception propagates at once. -/
def explicit_delete_run {α : Type}
    (del : List (List (String × α)) → Except PyExc Nat) :
    List (List (List (String × α))) → List (MutEvent α) × Except PyExc Unit
  | [] => ([], .ok ())
  | c :: cs =>
    match del c with
    | .error e => ([MutEvent.deleteCall c], .error e)
    | .ok _ =>
      let r := explicit_delete_run del cs
      (MutEvent.deleteCall c :: r.1, r.2)

/-- Method `_Connector.mutate` for one `(context, mutations)` pair (doris.py lines
1846-1918); the source iterates this body over `*all_mutations`, holding
`context.lock` around everything below. Partition the batch; if any
upserts exist, first delete their keys in chunks of
`context.spec.batch_size`, then Stream Load the upsert rows in chunks; a
load failure after a positive number of deletions logs
`"Stream Load failed after deleting \x7bn\x7d rows..."` and re-raises. Explicit
deletes run last, also in chunks. The run returns the ordered event trace
and the overall outcome. -/
def mutation_parts {α : Type} (state : _State) (conv : α → α)
    (mutations : List (MutKey α × Option (List (String × α)))) :
    List (List (String × α)) × List (List (String × α)) :=
  partition_mutations (state.key_fields_schema.map fun f => f.name)
    state.value_fields_schema conv mutations

/-- The chunks of upsert keys handed to `_execute_delete` (lines 1887-1894). -/
def upsert_key_chunks {α : Type} (spec : DorisTarget) (state : _State) (conv : α → α)
    (mutations : List (MutKey α × Option (List (String × α)))) :
    List (List (List (String × α))) :=
  chunks spec.batch_size (upsert_keys_of (state.key_fields_schema.map fun f => f.name)
    (mutation_parts state conv mutations).1)

/-- The chunks of upsert rows handed to `_stream_load` (lines 1902-1904). -/
def upsert_load_chunks {α : Type} (spec : DorisTarget) (state : _State) (conv : α → α)
    (mutations : List (MutKey α × Option (List (String × α)))) :
    List (List (List (String × α))) :=
  chunks spec.batch_size (mutation_parts state conv mutations).1

def mutate_one {α : Type} (spec : DorisTarget) (state : _State) (conv : α → α)
    (mutations : List (MutKey α × Option (List (String × α))))
    (del : List (List (String × α)) → Except PyExc Nat)
    (load : List (List (String × α)) → Except PyExc Unit) :
    List (MutEvent α) × Except PyExc Unit :=
  let upserts := (mutation_parts state conv mutations).1
  let deletes := (mutation_parts state conv mutations).2
  if upserts.isEmpty then
    explicit_delete_run del (chunks spec.batch_size deletes)
  else
    let dr := delete_chunks_run del (upsert_key_chunks spec state conv mutations)
    match dr.2 with
    | .error e => (dr.1, .error e)
    | .ok deleted_count =>
      let lr := load_chunks_run load (upsert_load_chunks spec state conv mutations)
      match lr.2 with
      | .error e =>
        (dr.1 ++ lr.1 ++
          (if 0 < deleted_count then [MutEvent.logDataLoss deleted_count] else []),
         .error e)
      | .ok () =>
        let xr := explicit_delete_run del (chunks spec.batch_size deletes)
        (dr.1 ++ lr.1 ++ xr.1, xr.2)

/-- Total row count the delete loop reports when every chunk succeeds. -/
def delete_total {α : Type} (del : List (List (String × α)) → Except PyExc Nat) :
    List (List (List (String × α))) → Nat
  | [] => 0
  | c :: cs =>
    (match del c with
     | .ok n => n
     | .error _ => 0) + delete_total del cs


/- ============================================================
   THEOREMS
   ============================================================ -/

/- ---------- general helper lemmas ---------- -/

theorem list_sublist_found_nil (l : List Char) : list_sublist_found [] l = true := by
  cases l with
  | nil => rfl
  | cons c cs => rfl

theorem list_sublist_found_of_mid (p : List Char) :
    ∀ (a b : List Char), list_sublist_found p (a ++ (p ++ b)) = true := by
  intro a b
  induction a with
  | nil =>
    cases p with
    | nil => exact list_sublist_found_nil b
    | cons q qs =>
      show list_sublist_found (q :: qs) (q :: (qs ++ b)) = true
      rw [list_sublist_found]
      have : (q :: qs).isPrefixOf (q :: (qs ++ b)) = true := by
        rw [← List.cons_append]
        exact List.isPrefixOf_iff_prefix.mpr (List.prefix_append _ _)
      rw [this, Bool.true_or]
  | cons c cs ih =>
    show list_sublist_found p (c :: (cs ++ (p ++ b))) = true
    rw [list_sublist_found, ih, Bool.or_true]

theorem message_names_column_sublist (m col : String)
    (h : ∃ pre post : String, m = pre ++ col ++ post) :
    list_sublist_found col.toList m.toList = true := by
  obtain ⟨pre, post, rfl⟩ := h
  have : (pre ++ col ++ post).toList = pre.toList ++ (col.toList ++ post.toList) := by
    simp [String.toList, List.append_assoc]
  rw [this]
  exact list_sublist_found_of_mid _ _ _

/- ---------- retry executor lemmas ---------- -/

theorem with_retry_go_all_retryable {T : Type} (config : RetryConfig) (name : String)
    (op : Nat → Except PyExc T) (g : Nat → BasePyExc)
    (hop : ∀ i, op i = .error (PyExc.base (g i)))
    (hret : ∀ i, is_retryable_error (PyExc.base (g i)) = true) :
    ∀ remaining attempt (last : Option BasePyExc) (delays : List ℚ), 0 < remaining →
      with_retry_go config name op remaining attempt last delays =
        ⟨attempt + remaining,
         delays ++ (List.range (remaining - 1)).map (fun i => backoff_delay config (attempt + i)),
         .error (PyExc.dorisConnectionError (retry_exhausted_message name config) "" 0
           (some (g (attempt + remaining - 1))))⟩ := by
  intro remaining
  induction remaining with
  | zero => intro attempt last delays h; omega
  | succ n ih =>
    intro attempt last delays _
    rw [with_retry_go]
    simp only [hop, hret, if_true, remembered_error]
    cases n with
    | zero =>
      rw [with_retry_go]
      simp
    | succ m =>
      have hpos : 0 < m + 1 := Nat.succ_pos m
      rw [if_pos hpos,
        ih (attempt + 1) (some (g attempt)) (delays ++ [backoff_delay config attempt]) hpos]
      have harith : attempt + 1 + (m + 1) - 1 = attempt + (m + 1 + 1) - 1 := by omega
      have hrange : (delays ++ [backoff_delay config attempt]) ++
          (List.range (m + 1 - 1)).map (fun i => backoff_delay config (attempt + 1 + i)) =
          delays ++ (List.range (m + 1 + 1 - 1)).map (fun i => backoff_delay config (attempt + i)) := by
        have h1 : m + 1 - 1 = m := by omega
        have h2 : m + 1 + 1 - 1 = m + 1 := by omega
        rw [h1, h2, List.range_succ_eq_map, List.map_cons, List.map_map, List.append_assoc]
        simp only [List.singleton_append, Nat.add_zero]
        congr 1
        congr 1
        exact List.map_congr_left fun i _ => by
          simp only [Function.comp_apply]
          congr 1
          omega
      rw [harith, hrange]
      congr 1
      omega

theorem with_retry_go_nonretryable {T : Type} (config : RetryConfig) (name : String)
    (op : Nat → Except PyExc T) (e : PyExc) (remaining attempt : Nat)
    (last : Option BasePyExc) (delays : List ℚ)
    (hpos : 0 < remaining) (hop : op attempt = .error e)
    (hnr : is_retryable_error e = false) :
    with_retry_go config name op remaining attempt last delays =
      ⟨attempt + 1, delays, .error e⟩ := by
  cases remaining with
  | zero => omega
  | succ n =>
    rw [with_retry_go]
    simp only [hop, hnr, Bool.false_eq_true, if_false]

theorem with_retry_go_ok_after {T : Type} (config : RetryConfig) (name : String)
    (op : Nat → Except PyExc T) (g : Nat → BasePyExc) (v : T) :
    ∀ (k remaining attempt : Nat) (last : Option BasePyExc) (delays : List ℚ),
      k < remaining →
      (∀ i, attempt ≤ i → i < attempt + k → op i = .error (PyExc.base (g i)) ∧
        is_retryable_error (PyExc.base (g i)) = true) →
      op (attempt + k) = .ok v →
      with_retry_go config name op remaining attempt last delays =
        ⟨attempt + k + 1,
         delays ++ (List.range k).map (fun i => backoff_delay config (attempt + i)),
         .ok v⟩ := by
  intro k
  induction k with
  | zero =>
    intro remaining attempt last delays hlt _ hok
    cases remaining with
    | zero => omega
    | succ n =>
      rw [Nat.add_zero] at hok
      rw [with_retry_go]
      simp only [hok]
      simp
  | succ m ih =>
    intro remaining attempt last delays hlt hfail hok
    cases remaining with
    | zero => omega
    | succ n =>
      have h0 : op attempt = .error (PyExc.base (g attempt)) ∧
          is_retryable_error (PyExc.base (g attempt)) = true :=
        hfail attempt (Nat.le_refl attempt) (by omega)
      rw [with_retry_go]
      simp only [h0.1, h0.2, if_true]
      have hnpos : 0 < n := by omega
      rw [if_pos hnpos]
      have hfail' : ∀ i, attempt + 1 ≤ i → i < attempt + 1 + m →
          op i = .error (PyExc.base (g i)) ∧ is_retryable_error (PyExc.base (g i)) = true := by
        intro i h1 h2
        exact hfail i (by omega) (by omega)
      have hok' : op (attempt + 1 + m) = .ok v := by
        have heq : attempt + 1 + m = attempt + (m + 1) := by omega
        rw [heq]; exact hok
      rw [ih n (attempt + 1) (remembered_error (PyExc.base (g attempt)) last)
        (delays ++ [backoff_delay config attempt]) (by omega) hfail' hok']
      have hrange : (delays ++ [backoff_delay config attempt]) ++
          (List.range m).map (fun i => backoff_delay config (attempt + 1 + i)) =
          delays ++ (List.range (m + 1)).map (fun i => backoff_delay config (attempt + i)) := by
        rw [List.range_succ_eq_map, List.map_cons, List.map_map, List.append_assoc]
        simp only [List.singleton_append, Nat.add_zero]
        congr 1
        congr 1
        exact List.map_congr_left fun i _ => by
          simp only [Function.comp_apply]
          congr 1
          omega
      rw [hrange]
      congr 1
      omega

theorem with_retry_go_delays_shape {T : Type} (config : RetryConfig) (name : String)
    (op : Nat → Except PyExc T) :
    ∀ (remaining attempt : Nat) (last : Option BasePyExc) (delays : List ℚ),
      ∃ m, (with_retry_go config name op remaining attempt last delays).delays =
        delays ++ (List.range m).map (fun i => backoff_delay config (attempt + i)) := by
  intro remaining
  induction remaining with
  | zero =>
    intro attempt last delays
    exact ⟨0, by simp [with_retry_go]⟩
  | succ n ih =>
    intro attempt last delays
    rw [with_retry_go]
    cases hop : op attempt with
    | ok v => exact ⟨0, by simp⟩
    | error e =>
      cases hr : is_retryable_error e with
      | false => exact ⟨0, by simp [hr]⟩
      | true =>
        simp only [hr, if_true]
        rcases Nat.eq_zero_or_pos n with hn | hn
        · subst hn
          simp only [Nat.lt_irrefl, if_false]
          exact ⟨0, by simp [with_retry_go]⟩
        · rw [if_pos hn]
          obtain ⟨k, hk⟩ := ih (attempt + 1) (remembered_error e last)
            (delays ++ [backoff_delay config attempt])
          refine ⟨k + 1, ?_⟩
          rw [hk, List.range_succ_eq_map, List.map_cons, List.map_map, List.append_assoc]
          simp only [List.singleton_append, Nat.add_zero]
          congr 2
          exact List.map_congr_left fun i _ => by
            simp only [Function.comp_apply]
            congr 1
            omega

theorem with_retry_go_skip {T : Type} (config : RetryConfig) (name : String)
    (op : Nat → Except PyExc T) (g : Nat → BasePyExc) :
    ∀ (k remaining attempt : Nat) (last : Option BasePyExc) (delays : List ℚ),
      k < remaining →
      (∀ i, attempt ≤ i → i < attempt + k → op i = .error (PyExc.base (g i)) ∧
        is_retryable_error (PyExc.base (g i)) = true) →
      with_retry_go config name op remaining attempt last delays =
        with_retry_go config name op (remaining - k) (attempt + k)
          (if k = 0 then last else some (g (attempt + k - 1)))
          (delays ++ (List.range k).map fun i => backoff_delay config (attempt + i)) := by
  intro k
  induction k with
  | zero =>
    intro remaining attempt last delays _ _
    simp
  | succ m ih =>
    intro remaining attempt last delays hlt hfail
    cases remaining with
    | zero => omega
    | succ n =>
      have h0 := hfail attempt (Nat.le_refl attempt) (by omega)
      rw [with_retry_go]
      simp only [h0.1, h0.2, if_true]
      rw [if_pos (show 0 < n by omega)]
      rw [ih n (attempt + 1) (remembered_error (PyExc.base (g attempt)) last)
        (delays ++ [backoff_delay config attempt]) (by omega)
        (fun i h1 h2 => hfail i (by omega) (by omega))]
      have hrem : n - m = n + 1 - (m + 1) := by omega
      have hatt : attempt + 1 + m = attempt + (m + 1) := by omega
      have hdelays : (delays ++ [backoff_delay config attempt]) ++
          (List.range m).map (fun i => backoff_delay config (attempt + 1 + i)) =
          delays ++ (List.range (m + 1)).map (fun i => backoff_delay config (attempt + i)) := by
        rw [List.range_succ_eq_map, List.map_cons, List.map_map, List.append_assoc]
        simp only [List.singleton_append, Nat.add_zero]
        congr 2
        exact List.map_congr_left fun i _ => by
          simp only [Function.comp_apply]
          congr 1
          omega
      rw [hrem, hatt, hdelays]
      have hlast : (if m = 0 then remembered_error (PyExc.base (g attempt)) last
          else some (g (attempt + (m + 1) - 1))) =
          (if m + 1 = 0 then last else some (g (attempt + (m + 1) - 1))) := by
        rw [if_neg (Nat.succ_ne_zero m)]
        rcases Nat.eq_zero_or_pos m with hm | hm
        · subst hm
          simp [remembered_error]
        · rw [if_neg (by omega)]
      rw [hlast]

/- ---------- claim C4 ---------- -/

/-- C4: for a retry configuration with `max_retries = n`, an operation that
raises a retryable error on every invocation is invoked exactly `n + 1`
times by `with_retry` and the run ends with a `DorisConnectionError` whose
message is "(name) failed after (n+1) attempts" and whose cause is the last
raised error; and an operation that raises a non-retryable error at some
attempt `k` (after retryable errors only) propagates that error at once,
with no invocation beyond the `k + 1` already made. -/
theorem with_retry_exhaustion_and_nonretryable {T : Type} (config : RetryConfig)
    (operation_name : String) :
    (∀ (op : Nat → Except PyExc T) (g : Nat → BasePyExc),
      (∀ i, op i = .error (PyExc.base (g i))) →
      (∀ i, is_retryable_error (PyExc.base (g i)) = true) →
      (with_retry config operation_name op).invocations = config.max_retries + 1 ∧
      (with_retry config operation_name op).result =
        .error (PyExc.dorisConnectionError
          (operation_name ++ " failed after " ++ toString (config.max_retries + 1) ++
            " attempts") "" 0 (some (g config.max_retries)))) ∧
    (∀ (op : Nat → Except PyExc T) (e : PyExc) (k : Nat) (g : Nat → BasePyExc),
      k ≤ config.max_retries →
      (∀ i, i < k → op i = .error (PyExc.base (g i)) ∧
        is_retryable_error (PyExc.base (g i)) = true) →
      op k = .error e → is_retryable_error e = false →
      (with_retry config operation_name op).invocations = k + 1 ∧
      (with_retry config operation_name op).result = .error e) := by
  constructor
  · intro op g hop hret
    rw [with_retry, with_retry_go_all_retryable config operation_name op g hop hret
      (config.max_retries + 1) 0 none [] (Nat.succ_pos _)]
    constructor
    · show 0 + (config.max_retries + 1) = config.max_retries + 1
      omega
    · show Except.error (PyExc.dorisConnectionError
          (retry_exhausted_message operation_name config) "" 0
          (some (g (0 + (config.max_retries + 1) - 1)))) = _
      have h1 : 0 + (config.max_retries + 1) - 1 = config.max_retries := by omega
      rw [h1]
      rfl
  · intro op e k g hk hfail hop hnr
    rw [with_retry, with_retry_go_skip config operation_name op g k (config.max_retries + 1)
      0 none [] (by omega) (fun i h1 h2 => hfail i (by omega))]
    rw [with_retry_go_nonretryable config operation_name op e _ _ _ _ (by omega)
      (by rw [Nat.zero_add]; exact hop) hnr]
    constructor
    · show 0 + k + 1 = k + 1
      omega
    · rfl

/-- C4 witness: with `max_retries = 2`, an always-retryable-failing operation
is invoked 3 times and ends in the connection failure reporting 3 attempts
with the last error as cause; a non-retryable error on the first attempt
propagates after exactly one invocation. -/
theorem with_retry_exhaustion_and_nonretryable_witness :
    ((with_retry (T := Nat) ⟨2, 1, 30, 2⟩ "op"
        (fun _ => .error (PyExc.base BasePyExc.connectionError))).invocations = 3 ∧
      (with_retry (T := Nat) ⟨2, 1, 30, 2⟩ "op"
        (fun _ => .error (PyExc.base BasePyExc.connectionError))).result =
        .error (PyExc.dorisConnectionError "op failed after 3 attempts" "" 0
          (some BasePyExc.connectionError))) ∧
    ((with_retry (T := Nat) ⟨2, 1, 30, 2⟩ "op"
        (fun _ => .error (PyExc.dorisSchema "bad"))).invocations = 1 ∧
      (with_retry (T := Nat) ⟨2, 1, 30, 2⟩ "op"
        (fun _ => .error (PyExc.dorisSchema "bad"))).result =
        .error (PyExc.dorisSchema "bad")) := by
  constructor
  · have h := (with_retry_exhaustion_and_nonretryable (T := Nat) ⟨2, 1, 30, 2⟩ "op").1
      (fun _ => .error (PyExc.base BasePyExc.connectionError))
      (fun _ => BasePyExc.connectionError) (fun _ => rfl) (fun _ => rfl)
    exact h
  · have h := (with_retry_exhaustion_and_nonretryable (T := Nat) ⟨2, 1, 30, 2⟩ "op").2
      (fun _ => .error (PyExc.dorisSchema "bad")) (PyExc.dorisSchema "bad") 0
      (fun _ => BasePyExc.connectionError) (by decide) (fun i hi => by omega)
      rfl rfl
    exact h

/- ---------- claim C5 ---------- -/

theorem retryable_is_base (e : PyExc) (h : is_retryable_error e = true) :
    ∃ b, e = PyExc.base b := by
  cases e with
  | base b => exact ⟨b, rfl⟩
  | dorisAuth m h' p => simp [is_retryable_error] at h
  | dorisStreamLoad err => simp [is_retryable_error] at h
  | dorisSchema m => simp [is_retryable_error] at h
  | dorisConnectionError m h' p c => simp [is_retryable_error] at h

/-- C5: every delay `with_retry` sleeps follows the backoff law — the
`i`-th slept delay (0-based) equals
`backoff_delay config i = min(base_delay * exponential_base ^ i, max_delay)`
— and an operation failing retryably on attempts 0 and 1 then succeeding on
attempt 2 (with `max_retries ≥ 2`) is invoked exactly 3 times, returns its
success value, and sleeps exactly the delays `backoff_delay config 0` and
`backoff_delay config 1`. -/
theorem with_retry_backoff_delays {T : Type} (config : RetryConfig)
    (operation_name : String) :
    (∀ (op : Nat → Except PyExc T), ∃ m,
      (with_retry config operation_name op).delays =
        (List.range m).map (fun i => backoff_delay config i)) ∧
    (∀ (op : Nat → Except PyExc T) (e0 e1 : PyExc) (v : T),
      2 ≤ config.max_retries →
      op 0 = .error e0 → is_retryable_error e0 = true →
      op 1 = .error e1 → is_retryable_error e1 = true →
      op 2 = .ok v →
      with_retry config operation_name op =
        ⟨3, [backoff_delay config 0, backoff_delay config 1], .ok v⟩) := by
  constructor
  · intro op
    obtain ⟨m, hm⟩ := with_retry_go_delays_shape config operation_name op
      (config.max_retries + 1) 0 none []
    refine ⟨m, ?_⟩
    rw [with_retry, hm, List.nil_append]
    exact List.map_congr_left fun i _ => by rw [Nat.zero_add]
  · intro op e0 e1 v hm h0 hr0 h1 hr1 h2
    obtain ⟨b0, hb0⟩ := retryable_is_base e0 hr0
    obtain ⟨b1, hb1⟩ := retryable_is_base e1 hr1
    subst hb0; subst hb1
    have hok := with_retry_go_ok_after config operation_name op
      (fun i => if i = 0 then b0 else b1) v 2 (config.max_retries + 1) 0 none []
      (by omega)
      (fun i hi1 hi2 => by
        interval_cases i
        · exact ⟨h0, hr0⟩
        · exact ⟨h1, hr1⟩)
      h2
    rw [with_retry, hok]
    rfl

/-- C5 witness: with `config = ⟨2, 1, 30, 2⟩`, an operation failing with a
connection error on attempts 0 and 1 and returning 42 on attempt 2 is
invoked 3 times, returns 42, and sleeps `min(1*2^0, 30) = 1` and
`min(1*2^1, 30) = 2`. -/
theorem with_retry_backoff_delays_witness :
    with_retry (T := Nat) ⟨2, 1, 30, 2⟩ "op"
      (fun i => if i = 0 then .error (PyExc.base BasePyExc.connectionError)
        else if i = 1 then .error (PyExc.base BasePyExc.serverDisconnected)
        else .ok 42) =
      ⟨3, [backoff_delay ⟨2, 1, 30, 2⟩ 0, backoff_delay ⟨2, 1, 30, 2⟩ 1], .ok 42⟩ ∧
    backoff_delay ⟨2, 1, 30, 2⟩ 0 = 1 ∧ backoff_delay ⟨2, 1, 30, 2⟩ 1 = 2 := by
  refine ⟨?_, ?_, ?_⟩
  · exact (with_retry_backoff_delays (T := Nat) ⟨2, 1, 30, 2⟩ "op").2
      (fun i => if i = 0 then .error (PyExc.base BasePyExc.connectionError)
        else if i = 1 then .error (PyExc.base BasePyExc.serverDisconnected)
        else .ok 42)
      (PyExc.base BasePyExc.connectionError) (PyExc.base BasePyExc.serverDisconnected) 42
      (by decide) rfl rfl rfl rfl rfl
  · rw [backoff_delay]
    norm_num
  · rw [backoff_delay]
    norm_num

/- ---------- claim C1 ---------- -/

/-- C1: for every pair of setup states whose key field schemas differ,
`check_state_compatibility` returns NOT_COMPATIBLE, regardless of the
evolution mode of either state (the mode is never consulted on this path). -/
theorem check_state_compatibility_key_change_not_compatible (previous current : _State)
    (h : previous.key_fields_schema ≠ current.key_fields_schema) :
    check_state_compatibility previous current = TargetStateCompatibility.NOT_COMPATIBLE := by
  rw [check_state_compatibility, if_pos h]

/-- C1 witness: a concrete pair of states with different key schemas, one
per evolution-mode combination, is NOT_COMPATIBLE. -/
theorem check_state_compatibility_key_change_witness :
    check_state_compatibility
      ⟨[⟨"id", ⟨ValueTypeRepr.basic "Int64" none, false⟩⟩], [], none, none, SchemaEvolution.extend⟩
      ⟨[⟨"key", ⟨ValueTypeRepr.basic "Str" none, false⟩⟩], [], none, none, SchemaEvolution.extend⟩ =
      TargetStateCompatibility.NOT_COMPATIBLE ∧
    check_state_compatibility
      ⟨[⟨"id", ⟨ValueTypeRepr.basic "Int64" none, false⟩⟩], [], none, none, SchemaEvolution.strict⟩
      ⟨[⟨"key", ⟨ValueTypeRepr.basic "Str" none, false⟩⟩], [], none, none, SchemaEvolution.extend⟩ =
      TargetStateCompatibility.NOT_COMPATIBLE := by
  constructor
  · exact check_state_compatibility_key_change_not_compatible _ _ (by decide)
  · exact check_state_compatibility_key_change_not_compatible _ _ (by decide)

/- ---------- claim C2 ---------- -/

theorem removed_value_columns_mem (previous current : _State) (f : FieldSchema)
    (hf : f ∈ previous.value_fields_schema)
    (hgone : ∀ g ∈ current.value_fields_schema, g.name ≠ f.name) :
    f.name ∈ removed_value_columns previous current := by
  rw [removed_value_columns]
  refine List.mem_filter.mpr ⟨List.mem_map.mpr ⟨f, hf, rfl⟩, ?_⟩
  simp only [decide_eq_true_eq]
  intro hc
  obtain ⟨g, hg, hgname⟩ := List.mem_map.mp (List.elem_iff.mp hc)
  exact hgone g hg hgname

theorem type_changed_in_common_false (previous current : _State)
    (htype : ∀ g ∈ current.value_fields_schema, ∀ p ∈ previous.value_fields_schema,
      p.name = g.name → p.value_type.type = g.value_type.type) :
    type_changed_in_common previous current = false := by
  rw [type_changed_in_common, List.any_eq_false]
  intro field hfield
  cases hl : prev_field_lookup previous field.name with
  | none => simp
  | some pf =>
    simp only [decide_eq_true_eq, Decidable.not_not]
    have hmem := List.mem_of_getLast?_eq_some (by rw [prev_field_lookup] at hl; exact hl)
    have hpf := List.mem_filter.mp hmem
    exact htype field hfield pf hpf.1 (of_decide_eq_true hpf.2)

/-- C2: when the key schemas are identical, `current` drops at least one
value column of `previous`, and every value column present in both keeps
its declared base type, `check_state_compatibility` is NOT_COMPATIBLE when
`current.schema_evolution` is strict and COMPATIBLE when it is extend. -/
theorem check_state_compatibility_dropped_column_mode (previous current : _State)
    (hkey : previous.key_fields_schema = current.key_fields_schema)
    (f : FieldSchema) (hf : f ∈ previous.value_fields_schema)
    (hgone : ∀ g ∈ current.value_fields_schema, g.name ≠ f.name)
    (htype : ∀ g ∈ current.value_fields_schema, ∀ p ∈ previous.value_fields_schema,
      p.name = g.name → p.value_type.type = g.value_type.type) :
    (current.schema_evolution = SchemaEvolution.strict →
      check_state_compatibility previous current = TargetStateCompatibility.NOT_COMPATIBLE) ∧
    (current.schema_evolution = SchemaEvolution.extend →
      check_state_compatibility previous current = TargetStateCompatibility.COMPATIBLE) := by
  have hrem : removed_value_columns previous current ≠ [] :=
    List.ne_nil_of_mem (removed_value_columns_mem previous current f hf hgone)
  have htc : type_changed_in_common previous current = false :=
    type_changed_in_common_false previous current htype
  constructor
  · intro hstrict
    rw [check_state_compatibility, if_neg (fun h => h hkey), if_pos ⟨hrem, hstrict⟩]
  · intro hext
    rw [check_state_compatibility, if_neg (fun h => h hkey),
      if_neg (fun hc => by rw [hext] at hc; exact SchemaEvolution.noConfusion hc.2),
      if_neg (by simp [htc])]

/-- C2 witness: state `{id key; a, b values}` against a current state that
drops `b` and keeps `a` at the same type: NOT_COMPATIBLE in strict mode,
COMPATIBLE in extend mode. -/
theorem check_state_compatibility_dropped_column_mode_witness :
    check_state_compatibility
      ⟨[⟨"id", ⟨ValueTypeRepr.basic "Int64" none, false⟩⟩],
        [⟨"a", ⟨ValueTypeRepr.basic "Str" none, true⟩⟩,
         ⟨"b", ⟨ValueTypeRepr.basic "Str" none, true⟩⟩], none, none, SchemaEvolution.extend⟩
      ⟨[⟨"id", ⟨ValueTypeRepr.basic "Int64" none, false⟩⟩],
        [⟨"a", ⟨ValueTypeRepr.basic "Str" none, true⟩⟩], none, none, SchemaEvolution.strict⟩ =
      TargetStateCompatibility.NOT_COMPATIBLE ∧
    check_state_compatibility
      ⟨[⟨"id", ⟨ValueTypeRepr.basic "Int64" none, false⟩⟩],
        [⟨"a", ⟨ValueTypeRepr.basic "Str" none, true⟩⟩,
         ⟨"b", ⟨ValueTypeRepr.basic "Str" none, true⟩⟩], none, none, SchemaEvolution.extend⟩
      ⟨[⟨"id", ⟨ValueTypeRepr.basic "Int64" none, false⟩⟩],
        [⟨"a", ⟨ValueTypeRepr.basic "Str" none, true⟩⟩], none, none, SchemaEvolution.extend⟩ =
      TargetStateCompatibility.COMPATIBLE := by
  constructor
  · exact (check_state_compatibility_dropped_column_mode
      ⟨[⟨"id", ⟨ValueTypeRepr.basic "Int64" none, false⟩⟩],
        [⟨"a", ⟨ValueTypeRepr.basic "Str" none, true⟩⟩,
         ⟨"b", ⟨ValueTypeRepr.basic "Str" none, true⟩⟩], none, none, SchemaEvolution.extend⟩
      ⟨[⟨"id", ⟨ValueTypeRepr.basic "Int64" none, false⟩⟩],
        [⟨"a", ⟨ValueTypeRepr.basic "Str" none, true⟩⟩], none, none, SchemaEvolution.strict⟩ rfl
      ⟨"b", ⟨ValueTypeRepr.basic "Str" none, true⟩⟩ (by decide)
      (by decide) (by decide)).1 rfl
  · exact (check_state_compatibility_dropped_column_mode
      ⟨[⟨"id", ⟨ValueTypeRepr.basic "Int64" none, false⟩⟩],
        [⟨"a", ⟨ValueTypeRepr.basic "Str" none, true⟩⟩,
         ⟨"b", ⟨ValueTypeRepr.basic "Str" none, true⟩⟩], none, none, SchemaEvolution.extend⟩
      ⟨[⟨"id", ⟨ValueTypeRepr.basic "Int64" none, false⟩⟩],
        [⟨"a", ⟨ValueTypeRepr.basic "Str" none, true⟩⟩], none, none, SchemaEvolution.extend⟩ rfl
      ⟨"b", ⟨ValueTypeRepr.basic "Str" none, true⟩⟩ (by decide)
      (by decide) (by decide)).2 rfl

/- ---------- claim C3 (corrected) ---------- -/

/-- C3 counterexample: a concrete reconciliation step in which the index is
created and BUILD INDEX issued successfully, and the build-status poll then
reaches its timeout without a terminal state (every poll reports the index
RUNNING). The claim says this is a soft failure after which reconciliation
continues without raising; in fact `_sync_indexes` raises
`DorisSchemaError("Timeout waiting for index build ix to complete")`, which
its own handler re-raises, so the step does not return successfully. -/
theorem sync_add_vector_index_timeout_counterexample :
    sync_add_vector_index ⟨"ix", "emb", "hnsw", "l2_distance", 4, none, none, none⟩ none
      (.ok true) (.ok ()) (.ok ()) 3
      (fun _ => .rows [⟨"ix", some "RUNNING", none⟩]) =
      .error (PyExc.dorisSchema "Timeout waiting for index build ix to complete") ∧
    sync_add_vector_index ⟨"ix", "emb", "hnsw", "l2_distance", 4, none, none, none⟩ none
      (.ok true) (.ok ()) (.ok ()) 3
      (fun _ => .rows [⟨"ix", some "RUNNING", none⟩]) ≠ .ok () := by
  constructor
  · rfl
  · decide

/-- C3 amended: when a vector index has been created and BUILD INDEX issued
(both DDL outcomes successful, after a successful schema-change wait) and
`_wait_for_index_build` times out (returns `false` without having seen a
terminal state), the add step of `_sync_indexes` raises
`DorisSchemaError("Timeout waiting for index build (name) to complete")`
and the except-chain re-raises it, so reconciliation aborts with that
error instead of continuing. -/
theorem sync_add_vector_index_timeout_fatal (idx : _VectorIndex)
    (build_fuel : Nat) (polls : Nat → BuildPollResult)
    (hwait : _wait_for_index_build idx.name polls build_fuel 0 = .ok false) :
    sync_add_vector_index idx none (.ok true) (.ok ()) (.ok ()) build_fuel polls =
      .error (PyExc.dorisSchema
        ("Timeout waiting for index build " ++ idx.name ++ " to complete")) := by
  rw [sync_add_vector_index]
  simp only [hwait]
  rfl

/-- C3 amended witness: the timeout raise at a concrete input — two pending
polls, then fuel exhausted. -/
theorem sync_add_vector_index_timeout_fatal_witness :
    sync_add_vector_index ⟨"idx_emb_ann", "emb", "hnsw", "inner_product", 768, some 32, some 200, none⟩
      none (.ok true) (.ok ()) (.ok ()) 2
      (fun _ => .rows [⟨"idx_emb_ann", some "WAITING_TXN", some "m"⟩]) =
      .error (PyExc.dorisSchema
        ("Timeout waiting for index build " ++ "idx_emb_ann" ++ " to complete")) :=
  sync_add_vector_index_timeout_fatal
    ⟨"idx_emb_ann", "emb", "hnsw", "inner_product", 768, some 32, some 200, none⟩ 2
    (fun _ => .rows [⟨"idx_emb_ann", some "WAITING_TXN", some "m"⟩]) rfl

/- ---------- claim C10 ---------- -/

/-- C10: `_stream_load` on an empty row list returns
`{"Status": "Success", "NumberLoadedRows": 0}` immediately — zero HTTP
requests, the retry executor never entered — for every spec and transport
oracle; a non-empty batch, by contrast, always goes through the retry
executor. -/
theorem stream_load_empty_rows_short_circuit (spec : DorisTarget)
    (oracle : Nat → HttpOutcome) :
    _stream_load spec [] oracle =
      { httpCalls := 0, retryUsed := false, delays := [],
        result := .ok ⟨some (JsonVal.str "Success"), none, none, some 0, none⟩ } ∧
    (∀ (row : List (String × JsonVal)) (rows : List (List (String × JsonVal))),
      (_stream_load spec (row :: rows) oracle).retryUsed = true) :=
  ⟨rfl, fun _ _ => rfl⟩

/- ---------- claim C8 ---------- -/

/-- C8: the Stream Load status check treats a `Status` that case-insensitively
equals "Success" or "Publish Timeout" as success and returns the parsed
response unchanged; for any other status (including a missing or non-string
`Status`) it raises a `DorisStreamLoadError` carrying the response's
reported message, the optional `ErrorURL`, and the loaded and filtered row
counts. -/
theorem check_stream_load_status_success_or_error (result : StreamLoadResponse) :
    ((∃ s, result.Status.getD (JsonVal.str "Unknown") = JsonVal.str s ∧
        (py_upper s = py_upper "Success" ∨ py_upper s = py_upper "Publish Timeout")) →
      check_stream_load_status result = .ok result) ∧
    ((∀ s, result.Status.getD (JsonVal.str "Unknown") = JsonVal.str s →
        py_upper s ≠ py_upper "Success" ∧ py_upper s ≠ py_upper "Publish Timeout") →
      check_stream_load_status result = .error (PyExc.dorisStreamLoad
        { message := result.Message.getD "Unknown error"
          status := result.Status.getD (JsonVal.str "Unknown")
          error_url := result.ErrorURL
          loaded_rows := result.NumberLoadedRows.getD 0
          filtered_rows := result.NumberFilteredRows.getD 0 })) := by
  constructor
  · intro ⟨s, hs, hup⟩
    rw [check_stream_load_status]
    simp only [hs]
    rw [if_neg]
    intro hno
    apply hno
    have h1 : py_upper "Success" = "SUCCESS" := rfl
    have h2 : py_upper "Publish Timeout" = "PUBLISH TIMEOUT" := rfl
    rcases hup with h | h
    · exact Or.inl (by rw [h, h1])
    · exact Or.inr (by rw [h, h2])
  · intro hall
    rw [check_stream_load_status]
    cases hst : result.Status.getD (JsonVal.str "Unknown") with
    | str s =>
      have hs := hall s hst
      simp only [hst]
      rw [if_pos]
      intro hyes
      have h1 : py_upper "Success" = "SUCCESS" := rfl
      have h2 : py_upper "Publish Timeout" = "PUBLISH TIMEOUT" := rfl
      rcases hyes with h | h
      · exact hs.1 (by rw [h, h1])
      · exact hs.2 (by rw [h, h2])
    | nonString =>
      simp only [hst]
      rw [if_pos]
      intro hyes
      rcases hyes with h | h
      · exact String.noConfusion (h : ("" : String) = "SUCCESS") (by intro hlist; cases hlist)
      · exact String.noConfusion (h : ("" : String) = "PUBLISH TIMEOUT") (by intro hlist; cases hlist)

/-- C8 witness: `Status = "success"` (lower case) is accepted and the parsed
response returned; `Status = "Fail"` raises the load error carrying message,
URL and both row counts. -/
theorem check_stream_load_status_success_or_error_witness :
    check_stream_load_status ⟨some (JsonVal.str "success"), none, none, some 10, none⟩ =
      .ok ⟨some (JsonVal.str "success"), none, none, some 10, none⟩ ∧
    check_stream_load_status ⟨some (JsonVal.str "Fail"), some "too many filtered rows",
        some "http://fe/error", some 7, some 3⟩ =
      .error (PyExc.dorisStreamLoad ⟨"too many filtered rows", JsonVal.str "Fail",
        some "http://fe/error", 7, 3⟩) := by
  constructor
  · exact (check_stream_load_status_success_or_error
      ⟨some (JsonVal.str "success"), none, none, some 10, none⟩).1
      ⟨"success", rfl, Or.inl rfl⟩
  · exact (check_stream_load_status_success_or_error
      ⟨some (JsonVal.str "Fail"), some "too many filtered rows",
        some "http://fe/error", some 7, some 3⟩).2
      (fun s hs => by
        cases hs
        exact ⟨by decide, by decide⟩)

/- ---------- claim C9 (corrected) ---------- -/

/-- C9 counterexample: the name `"a\n"` (the identifier `a` followed by a
newline) is not in the language of `^[a-zA-Z_][a-zA-Z0-9_]*$` read as a
full-string match, yet `_validate_identifier` does not raise: Python's `$`
(without `re.MULTILINE`) also matches just before a single trailing
newline, so `re.match` accepts the name and the function returns. -/
theorem validate_identifier_trailing_newline_counterexample :
    _validate_identifier "a\n" = .ok () ∧ spec_regex_full_match "a\n" = false :=
  ⟨rfl, rfl⟩

theorem re_match_identifier_iff (name : String) :
    re_match_identifier name = true ↔
      (spec_regex_full_match name = true ∨
        ∃ w : String, name = w ++ "\n" ∧ spec_regex_full_match w = true) := by
  rw [re_match_identifier, spec_regex_full_match, Bool.or_eq_true]
  constructor
  · rintro (h | h)
    · exact Or.inl h
    · right
      cases hl : name.toList.getLast? with
      | none => rw [hl] at h; cases h
      | some c =>
        rw [hl] at h
        have hc : c = '\n' := by
          have := (Bool.and_eq_true _ _).mp h
          exact eq_of_beq this.1
        have hid : ident_chars_match name.toList.dropLast = true :=
          ((Bool.and_eq_true _ _).mp h).2
        refine ⟨String.mk name.toList.dropLast, ?_, hid⟩
        apply String.ext
        show name.data = name.toList.dropLast ++ "\n".data
        have hdrop := List.dropLast_append_getLast? c (Option.mem_def.mpr hl)
        calc name.data = name.toList := rfl
          _ = name.toList.dropLast ++ [c] := hdrop.symm
          _ = name.toList.dropLast ++ "\n".data := by rw [hc]
  · rintro (h | ⟨w, rfl, hw⟩)
    · exact Or.inl h
    · right
      have hlist : (w ++ "\n").toList = w.toList ++ ['\n'] := by
        show (w ++ "\n").data = w.data ++ ['\n']
        rw [String.data_append]
      rw [hlist, List.getLast?_concat, List.dropLast_concat]
      show (('\n' == '\n') && ident_chars_match w.toList) = true
      rw [beq_self_eq_true, Bool.true_and]
      exact hw

/-- C9 amended: `_validate_identifier(name)` raises
`DorisSchemaError("Invalid identifier: " ++ name)` if and only if `name`
fails `re.match(r"^[a-zA-Z_][a-zA-Z0-9_]*$", name)` under Python `re`
semantics, whose `$` also matches just before one trailing newline: the
accepted set is the regex language plus every member of it with `"\n"`
appended. When the name is accepted the function returns with no effect. -/
theorem validate_identifier_python_regex_semantics (name : String) :
    (_validate_identifier name = .ok () ↔
      (spec_regex_full_match name = true ∨
        ∃ w : String, name = w ++ "\n" ∧ spec_regex_full_match w = true)) ∧
    (_validate_identifier name = .error ⟨"Invalid identifier: " ++ name, none⟩ ↔
      ¬ (spec_regex_full_match name = true ∨
        ∃ w : String, name = w ++ "\n" ∧ spec_regex_full_match w = true)) := by
  have hiff := re_match_identifier_iff name
  rw [_validate_identifier]
  cases h : re_match_identifier name with
  | true =>
    rw [if_neg (fun hc => Bool.noConfusion hc)]
    have hrhs := hiff.mp h
    constructor
    · exact ⟨fun _ => hrhs, fun _ => rfl⟩
    · constructor
      · intro hc
        exact Except.noConfusion hc
      · intro hc
        exact absurd hrhs hc
  | false =>
    rw [if_pos rfl]
    have hnot : ¬ (spec_regex_full_match name = true ∨
        ∃ w : String, name = w ++ "\n" ∧ spec_regex_full_match w = true) := by
      intro hc
      exact Bool.noConfusion (h ▸ hiff.mpr hc)
    constructor
    · constructor
      · intro hc
        exact Except.noConfusion hc
      · intro hc
        exact absurd hc hnot
    · exact ⟨fun _ => hnot, fun _ => rfl⟩

/-- C9 amended witness: `"ab"` is accepted (no raise); `"a b"` raises the
invalid-identifier error; and `"ab\n"` — not an identifier under the
full-match reading — is accepted through the Python trailing-newline case. -/
theorem validate_identifier_python_regex_semantics_witness :
    _validate_identifier "ab" = .ok () ∧
    _validate_identifier "a b" = .error ⟨"Invalid identifier: " ++ "a b", none⟩ ∧
    _validate_identifier "ab\n" = .ok () := by
  refine ⟨?_, ?_, ?_⟩
  · exact (validate_identifier_python_regex_semantics "ab").1.mpr (Or.inl rfl)
  · refine (validate_identifier_python_regex_semantics "a b").2.mpr ?_
    rintro (h | ⟨w, hw, _⟩)
    · exact absurd h (by decide)
    · have hlast : ("a b").data.getLast? = (w.data ++ ['\n']).getLast? := by
        rw [← String.data_append, ← hw]
      rw [List.getLast?_concat] at hlast
      exact absurd hlast (by decide)
  · exact (validate_identifier_python_regex_semantics "ab\n").1.mpr
      (Or.inr ⟨"ab", String.ext rfl, rfl⟩)

/- ---------- claim C7 (corrected) ---------- -/

/-- C7 counterexample: a dimension mismatch (live column `qqq` reports 3
dimensions, the index declares 4) raises a `DorisSchemaError`, but its
message does not name the offending column `qqq` anywhere — it
interpolates only the index name and the two dimensions — refuting the
claim that every violation's error names the offending column. -/
theorem validate_vector_index_dimension_message_counterexample :
    (_validate_vector_index_column ⟨"ix", "qqq", "hnsw", "l2_distance", 4, none, none, none⟩
        [("qqq", ⟨"qqq", "ARRAY<FLOAT>", false, false, some 3⟩)] =
      .error ⟨"Cannot create vector index " ++ pyq "ix" ++
        ": dimension mismatch - column has " ++ toString 3 ++
        " dimensions, but index expects " ++ toString 4 ++ " dimensions.", none⟩) ∧
    ¬ message_names_column
      ("Cannot create vector index " ++ pyq "ix" ++
        ": dimension mismatch - column has " ++ toString 3 ++
        " dimensions, but index expects " ++ toString 4 ++ " dimensions.") "qqq" := by
  constructor
  · rfl
  · intro h
    have hinf := message_names_column_sublist _ _ h
    exact absurd hinf (by decide)

/-- C7 amended: `_validate_vector_index_column` raises a `DorisSchemaError`
exactly when the index's target column is absent from the live schema, is
not array-typed, is nullable, or reports a dimension different from the
index's declared dimension; for the first three violations the error
message names the offending column, while a dimension mismatch raises an
error that reports the index name and the two dimensions (but not the
column name). For a present, array-typed, NOT NULL column whose reported
dimension (when present) matches, it returns without raising. -/
theorem validate_vector_index_column_checks (idx : _VectorIndex)
    (actual_schema : ActualSchema) :
    (actual_schema.lookup idx.field_name = none →
      ∃ err, _validate_vector_index_column idx actual_schema = .error err ∧
        message_names_column err.message idx.field_name) ∧
    (∀ col, actual_schema.lookup idx.field_name = some col →
      py_startswith (py_upper col.doris_type) "ARRAY" = false →
      ∃ err, _validate_vector_index_column idx actual_schema = .error err ∧
        message_names_column err.message idx.field_name) ∧
    (∀ col, actual_schema.lookup idx.field_name = some col →
      py_startswith (py_upper col.doris_type) "ARRAY" = true →
      col.nullable = true →
      ∃ err, _validate_vector_index_column idx actual_schema = .error err ∧
        message_names_column err.message idx.field_name) ∧
    (∀ col d, actual_schema.lookup idx.field_name = some col →
      py_startswith (py_upper col.doris_type) "ARRAY" = true →
      col.nullable = false → col.dimension = some d → d ≠ idx.dimension →
      _validate_vector_index_column idx actual_schema = .error
        ⟨"Cannot create vector index " ++ pyq idx.name ++
          ": dimension mismatch - column has " ++ toString d ++
          " dimensions, but index expects " ++ toString idx.dimension ++
          " dimensions.", none⟩) ∧
    (∀ col, actual_schema.lookup idx.field_name = some col →
      py_startswith (py_upper col.doris_type) "ARRAY" = true →
      col.nullable = false →
      (col.dimension = none ∨ col.dimension = some idx.dimension) →
      _validate_vector_index_column idx actual_schema = .ok ()) := by
  refine ⟨?_, ?_, ?_, ?_, ?_⟩
  · intro hnone
    rw [_validate_vector_index_column]
    simp only [hnone]
    refine ⟨_, rfl, ?_⟩
    refine ⟨"Cannot create vector index " ++ pyq idx.name ++ ": column " ++ pysq,
      pysq ++ " does not exist in table. Available columns: " ++
        py_str_list_repr (actual_schema.map Prod.fst), ?_⟩
    apply String.ext
    simp [pyq, String.data_append, List.append_assoc]
  · intro col hcol harr
    rw [_validate_vector_index_column]
    simp only [hcol, harr, if_pos]
    refine ⟨_, rfl, ?_⟩
    refine ⟨"Cannot create vector index " ++ pyq idx.name ++ ": column " ++ pysq,
      pysq ++ " has type " ++ pyq col.doris_type ++
        ", expected ARRAY<FLOAT>. Vector indexes require array types.", ?_⟩
    apply String.ext
    simp [pyq, String.data_append, List.append_assoc]
  · intro col hcol harr hnul
    refine ⟨⟨"Cannot create vector index " ++ pyq idx.name ++ ": column " ++
      pyq idx.field_name ++
      " is nullable. Vector indexes require NOT NULL columns. Use ALTER TABLE to set the column to NOT NULL.",
      none⟩, ?_, ?_⟩
    · simp [_validate_vector_index_column, hcol, harr, hnul]
    · refine ⟨"Cannot create vector index " ++ pyq idx.name ++ ": column " ++ pysq,
        pysq ++
          " is nullable. Vector indexes require NOT NULL columns. Use ALTER TABLE to set the column to NOT NULL.", ?_⟩
      apply String.ext
      simp [pyq, String.data_append, List.append_assoc]
  · intro col d hcol harr hnul hdim hne
    simp [_validate_vector_index_column, hcol, harr, hnul, hdim, hne]
  · intro col hcol harr hnul hdim
    rcases hdim with h | h
    · simp [_validate_vector_index_column, hcol, harr, hnul, h]
    · simp [_validate_vector_index_column, hcol, harr, hnul, h]

/-- C7 amended witness: requesting the index on a live schema without the
column raises an error naming `emb`; requesting it on a NOT NULL
`ARRAY<FLOAT>` column with matching dimension succeeds. -/
theorem validate_vector_index_column_checks_witness :
    (∃ err, _validate_vector_index_column ⟨"ix", "emb", "hnsw", "l2_distance", 4, none, none, none⟩
        [("other", ⟨"other", "TEXT", true, false, none⟩)] = .error err ∧
      message_names_column err.message "emb") ∧
    _validate_vector_index_column ⟨"ix", "emb", "hnsw", "l2_distance", 4, none, none, none⟩
      [("emb", ⟨"emb", "ARRAY<FLOAT>", false, false, some 4⟩)] = .ok () := by
  constructor
  · exact (validate_vector_index_column_checks
      ⟨"ix", "emb", "hnsw", "l2_distance", 4, none, none, none⟩
      [("other", ⟨"other", "TEXT", true, false, none⟩)]).1 rfl
  · exact (validate_vector_index_column_checks
      ⟨"ix", "emb", "hnsw", "l2_distance", 4, none, none, none⟩
      [("emb", ⟨"emb", "ARRAY<FLOAT>", false, false, some 4⟩)]).2.2.2.2
      ⟨"emb", "ARRAY<FLOAT>", false, false, some 4⟩ rfl rfl rfl (Or.inr rfl)

/- ---------- claim C6 ---------- -/

theorem delete_chunks_run_ok {α : Type}
    (del : List (List (String × α)) → Except PyExc Nat)
    (cs : List (List (List (String × α))))
    (h : ∀ c ∈ cs, ∃ n, del c = .ok n) :
    delete_chunks_run del cs = (cs.map MutEvent.deleteCall, .ok (delete_total del cs)) := by
  induction cs with
  | nil => rfl
  | cons c cs ih =>
    obtain ⟨n, hn⟩ := h c (List.mem_cons_self c cs)
    have ih' := ih fun x hx => h x (List.mem_cons_of_mem c hx)
    simp only [delete_chunks_run, delete_total, hn, ih', List.map_cons]

theorem load_chunks_run_fail {α : Type}
    (load : List (List (String × α)) → Except PyExc Unit) (e : PyExc) :
    ∀ (pre : List (List (List (String × α)))) (c : List (List (String × α)))
      (post : List (List (List (String × α)))),
      (∀ x ∈ pre, load x = .ok ()) → load c = .error e →
      load_chunks_run load (pre ++ c :: post) =
        ((pre ++ [c]).map MutEvent.loadCall, .error e) := by
  intro pre
  induction pre with
  | nil =>
    intro c post _ hc
    simp only [List.nil_append, load_chunks_run, hc, List.map_cons, List.map_nil]
  | cons x xs ih =>
    intro c post hpre hc
    have hx := hpre x (List.mem_cons_self x xs)
    have ih' := ih c post (fun y hy => hpre y (List.mem_cons_of_mem x hy)) hc
    simp only [List.cons_append, load_chunks_run, hx, List.append_eq, ih', List.map_cons]

/-- C6: for a batch with at least one upsert entry, `mutate` deletes the
keys of all upsert rows in chunks of the configured batch size — the event
trace starts with exactly the `_execute_delete` calls on
`upsert_key_chunks` — before any Stream Load is issued; and when a
Stream Load chunk then fails, the trace records the data-loss log entry
carrying the count of already-deleted rows (whenever that count is
positive) and the error is re-raised as the outcome of `mutate`, never
swallowed. -/
theorem mutate_one_delete_before_load_and_reraise {α : Type} (spec : DorisTarget)
    (state : _State) (conv : α → α)
    (mutations : List (MutKey α × Option (List (String × α))))
    (del : List (List (String × α)) → Except PyExc Nat)
    (load : List (List (String × α)) → Except PyExc Unit)
    (e : PyExc)
    (pre : List (List (List (String × α)))) (c : List (List (String × α)))
    (post : List (List (List (String × α))))
    (hne : (mutation_parts state conv mutations).1.isEmpty = false)
    (hdel : ∀ ch ∈ upsert_key_chunks spec state conv mutations, ∃ n, del ch = .ok n)
    (hlc : upsert_load_chunks spec state conv mutations = pre ++ c :: post)
    (hpre : ∀ x ∈ pre, load x = .ok ()) (hc : load c = .error e) :
    mutate_one spec state conv mutations del load =
      ((upsert_key_chunks spec state conv mutations).map MutEvent.deleteCall ++
        (pre ++ [c]).map MutEvent.loadCall ++
        (if 0 < delete_total del (upsert_key_chunks spec state conv mutations) then
          [MutEvent.logDataLoss (delete_total del (upsert_key_chunks spec state conv mutations))]
         else []),
       .error e) ∧
    (0 < delete_total del (upsert_key_chunks spec state conv mutations) →
      MutEvent.logDataLoss (delete_total del (upsert_key_chunks spec state conv mutations)) ∈
        (mutate_one spec state conv mutations del load).1) := by
  have hmain : mutate_one spec state conv mutations del load =
      ((upsert_key_chunks spec state conv mutations).map MutEvent.deleteCall ++
        (pre ++ [c]).map MutEvent.loadCall ++
        (if 0 < delete_total del (upsert_key_chunks spec state conv mutations) then
          [MutEvent.logDataLoss (delete_total del (upsert_key_chunks spec state conv mutations))]
         else []),
       .error e) := by
    rw [mutate_one]
    simp only [hne, Bool.false_eq_true, if_false]
    rw [delete_chunks_run_ok del _ hdel]
    rw [hlc, load_chunks_run_fail load e pre c post hpre hc]
  refine ⟨hmain, ?_⟩
  intro hpos
  rw [hmain]
  simp only [if_pos hpos]
  exact List.mem_append.mpr (Or.inr (List.mem_singleton.mpr rfl))

/-- C6 witness: one upsert for scalar key 5 with batch size 10; the delete
of its key (1 row deleted) precedes the Stream Load, whose failure is
logged with the count 1 and re-raised. -/
theorem mutate_one_delete_before_load_and_reraise_witness :
    mutate_one (α := Nat)
      ⟨"h", "d", "t", 8080, 9030, "root", "", false, 10, 600, true, 60, 300, 3, 1, 30,
        SchemaEvolution.extend⟩
      ⟨[⟨"id", ⟨ValueTypeRepr.basic "Int64" none, false⟩⟩],
        [⟨"content", ⟨ValueTypeRepr.basic "Str" none, true⟩⟩], none, none,
        SchemaEvolution.extend⟩
      id [(MutKey.scalar 5, some [("content", 7)])]
      (fun ch => .ok ch.length)
      (fun _ => .error (PyExc.base BasePyExc.connectionError)) =
      ([MutEvent.deleteCall [[("id", 5)]],
        MutEvent.loadCall [[("id", 5), ("content", 7)]],
        MutEvent.logDataLoss 1],
       .error (PyExc.base BasePyExc.connectionError)) := by
  have h := (mutate_one_delete_before_load_and_reraise (α := Nat)
    ⟨"h", "d", "t", 8080, 9030, "root", "", false, 10, 600, true, 60, 300, 3, 1, 30,
      SchemaEvolution.extend⟩
    ⟨[⟨"id", ⟨ValueTypeRepr.basic "Int64" none, false⟩⟩],
      [⟨"content", ⟨ValueTypeRepr.basic "Str" none, true⟩⟩], none, none,
      SchemaEvolution.extend⟩
    id [(MutKey.scalar 5, some [("content", 7)])]
    (fun ch => .ok ch.length)
    (fun _ => .error (PyExc.base BasePyExc.connectionError))
    (PyExc.base BasePyExc.connectionError)
    [] [[("id", 5), ("content", 7)]] []
    rfl
    (fun ch hch => ⟨ch.length, rfl⟩)
    rfl
    (fun x hx => absurd hx (List.not_mem_nil x))
    rfl).1
  rw [h]
  rfl
